import Mathlib

/-!
STMDatabase: the dataloss detector and the `POST /log` / `DELETE /logs/:playerName` handlers.

A shallow embedding of `server.js`.

* JSON numbers are modelled as rationals (every finite double is one, and `<`, `>` on finite
  doubles agree with the order of `ℚ`).
* A JSON object with numeric values is an association list of its own members. Reading
  `obj[key]` gives the own member if there is one, else the member inherited from
  `Object.prototype` if `key` names one, else `undefined`.
* A request body carries `playerName` and the two optional members `stats` and `swords`.
* A `TypeError` thrown inside a handler is the `Except.error` result of `detectDataloss`;
  Express answers such a request with status 500.
-/

namespace STMDatabase

/-- A JSON object whose members are numbers. -/
abbrev NumMap := List (String × ℚ)

/-- The body of a `POST /log` request, which is also the record kept per player. -/
structure LogData where
  playerName : String
  stats : Option NumMap
  swords : Option NumMap
deriving DecidableEq

/-- The record written by `writeDatalossLog`: `{ previousData, currentData }`. -/
structure DatalossData where
  previousData : LogData
  currentData : LogData
deriving DecidableEq

/-- Exceptions raised by the JavaScript code. -/
inductive JsError where
  | typeError
deriving DecidableEq

/-- A value read from a member of a parsed body: `undefined`, a number, or a member inherited
from `Object.prototype` (a function, or the prototype object itself for `__proto__`). -/
inductive JsValue where
  | undefined
  | number (x : ℚ)
  | inherited
deriving DecidableEq

/-- The names that every object made by `JSON.parse` inherits from `Object.prototype`. -/
def objectPrototypeNames : List String :=
  ["constructor", "__defineGetter__", "__defineSetter__", "hasOwnProperty", "__lookupGetter__",
    "__lookupSetter__", "isPrototypeOf", "propertyIsEnumerable", "toString", "valueOf",
    "__proto__", "toLocaleString"]

/-- JavaScript `ToNumber` as `<` and `>` apply it, with `none` for `NaN`: `undefined` gives `NaN`,
and so does an inherited function or object (its primitive is a string that is not numeric). -/
def JsValue.toNumber : JsValue → Option ℚ
  | .undefined => none
  | .number x => some x
  | .inherited => none

/-- JavaScript truthiness: `undefined` and the number zero are falsy, functions and objects are
truthy. -/
def JsValue.truthy : JsValue → Bool
  | .undefined => false
  | .number x => decide (x ≠ 0)
  | .inherited => true

/-- JavaScript `a > b`, where in every use one side is a number: both sides convert with
`ToNumber` and every comparison with `NaN` is `false`. -/
def jsGt (a b : JsValue) : Bool :=
  match a.toNumber, b.toNumber with
  | some x, some y => decide (y < x)
  | _, _ => false

/-- JavaScript `a < b`, where in every use one side is a number. -/
def jsLt (a b : JsValue) : Bool :=
  match a.toNumber, b.toNumber with
  | some x, some y => decide (x < y)
  | _, _ => false

/-- JavaScript `v || 0`: a falsy `v` (`undefined` or the number zero) gives `0`, a truthy `v`
gives `v` itself. -/
def jsOrZero (v : JsValue) : JsValue :=
  if v.truthy then v else .number 0

/-- The property names enumerated by `for (let k in obj)`: the own members of a parsed object
(the members of `Object.prototype` are not enumerable); nothing is enumerated when `obj` is
`undefined`. -/
def forInKeys : Option NumMap → List String
  | none => []
  | some m => m.map Prod.fst

/-- Reading `m[key]` on an object: the own member, else the inherited one, else `undefined`. -/
def member (m : NumMap) (key : String) : JsValue :=
  match m.lookup key with
  | some x => .number x
  | none => if objectPrototypeNames.contains key then .inherited else .undefined

/-- Reading `obj[key]` where `obj` itself may be `undefined`: that read throws a `TypeError`. -/
def getProp (obj : Option NumMap) (key : String) : Except JsError JsValue :=
  match obj with
  | none => .error .typeError
  | some m => .ok (member m key)

/-- The own member `key` of `obj`, when `obj` is present and has it (`hasOwnProperty`). -/
def ownProp (obj : Option NumMap) (key : String) : Option ℚ :=
  match obj with
  | none => none
  | some m => m.lookup key

/-- The value of `obj[key]` when the read does not throw. -/
def memberOf (obj : Option NumMap) (key : String) : JsValue :=
  match obj with
  | none => .undefined
  | some m => member m key

/-- The test of line 20, `existingLog.stats[stat] > currentLog.stats[stat]`. -/
def statMismatch (prevStatValue currStatValue : JsValue) : Bool :=
  jsGt prevStatValue currStatValue

/-- The test of line 30 on `prevSwordValue` and the raw `currentLog.swords[sword]`, with
`currSwordValue` computed as on line 29. -/
def swordMismatch (prevSwordValue currRaw : JsValue) : Bool :=
  let currSwordValue := jsOrZero currRaw
  jsGt prevSwordValue (.number 0) && jsLt currSwordValue prevSwordValue

/-- The first loop of `detectDataloss` (lines 19-24), run over the remaining stat names. -/
def statsLoop (existingStats currentStats : Option NumMap) :
    List String → Bool → Except JsError Bool
  | [], dataloss => .ok dataloss
  | stat :: rest, dataloss =>
    match getProp existingStats stat with
    | .error e => .error e
    | .ok prev =>
      match getProp currentStats stat with
      | .error e => .error e
      | .ok cur =>
        if statMismatch prev cur then
          statsLoop existingStats currentStats rest true
        else
          statsLoop existingStats currentStats rest dataloss

/-- The second loop of `detectDataloss` (lines 27-34), run over the remaining sword names. -/
def swordsLoop (existingSwords currentSwords : Option NumMap) :
    List String → Bool → Except JsError Bool
  | [], dataloss => .ok dataloss
  | sword :: rest, dataloss =>
    match getProp existingSwords sword with
    | .error e => .error e
    | .ok prevSwordValue =>
      match getProp currentSwords sword with
      | .error e => .error e
      | .ok cur =>
        if swordMismatch prevSwordValue cur then
          swordsLoop existingSwords currentSwords rest true
        else
          swordsLoop existingSwords currentSwords rest dataloss

/-- The function `detectDataloss(existingLog, currentLog)` of `server.js` (lines 15-37). -/
def detectDataloss (existingLog currentLog : LogData) : Except JsError Bool :=
  match statsLoop existingLog.stats currentLog.stats (forInKeys existingLog.stats) false with
  | .error e => .error e
  | .ok dataloss =>
    swordsLoop existingLog.swords currentLog.swords (forInKeys existingLog.swords) dataloss

/-- Modelled from the spec: the `logger` module (`readPlayerLog`, `writePlayerLog`,
`readDatalossLog`, `writeDatalossLog`) and the files it keeps are not among the sources; following
the spec's BaselineStore and IncidentStore they are two independent stores keyed by player name,
where reading gives the record last written, or nothing. -/
structure Store where
  playerLogs : String → Option LogData
  datalossLogs : String → Option DatalossData

/-- The log directory before any request. -/
def Store.empty : Store := ⟨fun _ => none, fun _ => none⟩

/-- The model of `logger.readPlayerLog(playerName)`. -/
def readPlayerLog (s : Store) (playerName : String) : Option LogData :=
  s.playerLogs playerName

/-- The model of `logger.readDatalossLog(playerName)`. -/
def readDatalossLog (s : Store) (playerName : String) : Option DatalossData :=
  s.datalossLogs playerName

/-- The model of `logger.writePlayerLog(playerName, logData)`. -/
def writePlayerLog (s : Store) (playerName : String) (logData : LogData) : Store :=
  { s with playerLogs := fun p => if p = playerName then some logData else s.playerLogs p }

/-- The model of `logger.writeDatalossLog(playerName, datalossData)`. -/
def writeDatalossLog (s : Store) (playerName : String) (datalossData : DatalossData) : Store :=
  { s with datalossLogs := fun p => if p = playerName then some datalossData else s.datalossLogs p }

/-- Removal of the player's dataloss file, `fs.unlinkSync(datalossFilePath)`. -/
def unlinkDatalossLog (s : Store) (playerName : String) : Store :=
  { s with datalossLogs := fun p => if p = playerName then none else s.datalossLogs p }

/-- Removal of the player's log file, `fs.unlinkSync(logFilePath)`. -/
def unlinkPlayerLog (s : Store) (playerName : String) : Store :=
  { s with playerLogs := fun p => if p = playerName then none else s.playerLogs p }

/-- What a handler sends back. -/
inductive Response where
  /-- Status 200, "New log created." -/
  | newLogCreated
  /-- Status 200, "Log updated." -/
  | logUpdated
  /-- Status 200, "Dataloss detected and logged." -/
  | datalossDetected
  /-- Status 200, "Player has recovered. Dataloss log removed and log updated." -/
  | recovered
  /-- Status 200, "Log deleted successfully." -/
  | logDeleted
  /-- Status 500: the handler threw. -/
  | serverError
deriving DecidableEq

/-- The handler `app.post("/log")` of `server.js` (lines 39-88): the store after the request and
the response. -/
def postLog (s : Store) (logData : LogData) : Store × Response :=
  let playerName := logData.playerName
  let existingLog := readPlayerLog s playerName
  let datalossLog := readDatalossLog s playerName
  match existingLog with
  | some existing =>
    match detectDataloss existing logData with
    | .error _ => (s, .serverError)
    | .ok true =>
      match datalossLog with
      | none =>
        (writeDatalossLog s playerName { previousData := existing, currentData := logData },
          .datalossDetected)
      | some _ => (s, .datalossDetected)
    | .ok false =>
      match datalossLog with
      | some dl =>
        match detectDataloss dl.previousData logData with
        | .error _ => (s, .serverError)
        | .ok false =>
          (writePlayerLog (unlinkDatalossLog s playerName) playerName logData, .recovered)
        | .ok true => (writePlayerLog s playerName logData, .logUpdated)
      | none => (writePlayerLog s playerName logData, .logUpdated)
  | none => (writePlayerLog s playerName logData, .newLogCreated)

/-- The handler `app.delete("/logs/:playerName")` of `server.js` (lines 91-112). -/
def deleteLog (s : Store) (playerName : String) : Store × Response :=
  let s1 := if (s.playerLogs playerName).isSome then unlinkPlayerLog s playerName else s
  let s2 := if (s1.datalossLogs playerName).isSome then unlinkDatalossLog s1 playerName else s1
  (s2, .logDeleted)

/-- A request that changes the store. -/
inductive Request where
  | post (logData : LogData)
  | delete (playerName : String)

/-- The store after one request. -/
def step (s : Store) : Request → Store
  | .post logData => (postLog s logData).1
  | .delete playerName => (deleteLog s playerName).1

/-- The store after a sequence of requests, served one at a time. -/
def run (s : Store) (reqs : List Request) : Store :=
  reqs.foldl step s

/-- The stores that some finite sequence of requests produces from the empty log directory. -/
def Reachable (s : Store) : Prop :=
  ∃ reqs : List Request, run Store.empty reqs = s

/-- A body with both the `stats` and the `swords` member: a snapshot in the spec's sense. -/
def LogData.isSnapshot (d : LogData) : Prop :=
  d.stats.isSome = true ∧ d.swords.isSome = true

instance (d : LogData) : Decidable d.isSnapshot := by
  unfold LogData.isSnapshot; infer_instance

/-- The relation between the two stores that the handlers maintain: a player with a dataloss
record has a log equal to its `previousData`, and every log is kept under its own `playerName`. -/
structure Consistent (s : Store) : Prop where
  frozen : ∀ p dl, s.datalossLogs p = some dl → s.playerLogs p = some dl.previousData
  named : ∀ p d, s.playerLogs p = some d → d.playerName = p

/-- Step 4 of the spec's algorithm (an incident is open), written from the spec's words: run
`detect(incident.baselineSnapshot, incomingSnapshot)`; if still regressing take no storage action
and return RegressionDetected; otherwise delete the incident, replace the baseline with the
incoming snapshot and return Recovered. -/
def specStep4 (s : Store) (incident : DatalossData) (incoming : LogData) :
    Except JsError (Store × Response) :=
  match detectDataloss incident.previousData incoming with
  | .error e => .error e
  | .ok true => .ok (s, .datalossDetected)
  | .ok false =>
    .ok (writePlayerLog (unlinkDatalossLog s incoming.playerName) incoming.playerName incoming,
      .recovered)

/-- The body `{ playerName: "alice", stats: { gold: g }, swords: { sword1: 2 } }` of the spec's
end-to-end scenarios. -/
def aliceGold (g : ℚ) : LogData :=
  ⟨"alice", some [("gold", g)], some [("sword1", 2)]⟩

/-- The store after scenarios 1 and 2: "alice" is tracked with gold 150. -/
def trackingStore : Store :=
  run Store.empty [.post (aliceGold 100), .post (aliceGold 150)]

/-- The store after scenarios 1 to 3: the submission with gold 50 opened an incident. -/
def incidentStore : Store :=
  run Store.empty [.post (aliceGold 100), .post (aliceGold 150), .post (aliceGold 50)]

/-- A content of the two stores in which the log of "alice" (gold 200) differs from the
`previousData` of her dataloss record (gold 100). -/
def divergedStore : Store :=
  writeDatalossLog
    (writePlayerLog Store.empty "alice" (aliceGold 200))
    "alice"
    { previousData := ⟨"alice", some [("gold", 100)], some [("sword1", 2)]⟩
      currentData := ⟨"alice", some [("gold", 50)], some [("sword1", 2)]⟩ }

/-! Properties of the detector. -/

theorem jsGt_self (v : JsValue) : jsGt v v = false := by
  cases v <;> simp [jsGt, JsValue.toNumber]

theorem jsOrZero_number {x : ℚ} (h : x ≠ 0) : jsOrZero (.number x) = .number x := by
  simp [jsOrZero, JsValue.truthy, h]

theorem statMismatch_self (v : JsValue) : statMismatch v v = false := jsGt_self v

theorem swordMismatch_self (v : JsValue) : swordMismatch v v = false := by
  cases v with
  | undefined => simp [swordMismatch, jsGt, JsValue.toNumber]
  | inherited => simp [swordMismatch, jsGt, JsValue.toNumber]
  | number x =>
    by_cases h : x = 0
    · simp [swordMismatch, jsGt, JsValue.toNumber, h]
    · simp [swordMismatch, jsGt, jsLt, jsOrZero_number h, JsValue.toNumber]

theorem lookup_cons_ne {k k' : String} (h : k ≠ k') (v : ℚ) (t : NumMap) :
    List.lookup k ((k', v) :: t) = List.lookup k t := by
  have hb : (k == k') = false := by simpa using h
  rw [List.lookup_cons, hb]

theorem mem_forInKeys {m : NumMap} {k : String} {x : ℚ} (h : m.lookup k = some x) :
    k ∈ forInKeys (some m) := by
  induction m with
  | nil => simp at h
  | cons a t ih =>
    obtain ⟨k', x'⟩ := a
    simp only [forInKeys, List.map_cons, List.mem_cons]
    by_cases hk : k = k'
    · exact Or.inl hk
    · right
      have hb : (k == k') = false := by simpa using hk
      rw [List.lookup_cons, hb] at h
      exact ih h

theorem lookup_isSome_of_mem_forInKeys {m : NumMap} {k : String} (h : k ∈ forInKeys (some m)) :
    ∃ x, m.lookup k = some x := by
  induction m with
  | nil => simp [forInKeys] at h
  | cons a t ih =>
    obtain ⟨k', x'⟩ := a
    by_cases hk : k = k'
    · exact ⟨x', by simp [List.lookup_cons, hk]⟩
    · have hb : (k == k') = false := by simpa using hk
      simp only [forInKeys, List.map_cons, List.mem_cons] at h
      rcases h with h | h
      · exact absurd h hk
      · obtain ⟨x, hx⟩ := ih h
        exact ⟨x, by rw [List.lookup_cons, hb]; exact hx⟩

/-- An own member is what the read gives: it hides the inherited one. -/
theorem memberOf_of_ownProp {m : Option NumMap} {k : String} {x : ℚ}
    (h : ownProp m k = some x) : memberOf m k = .number x := by
  cases m with
  | none => simp [ownProp] at h
  | some l =>
    simp only [ownProp] at h
    simp [memberOf, member, h]

/-- Without an own member the read gives `undefined` or an inherited member; both are `NaN` as
numbers. -/
theorem memberOf_toNumber_of_ownProp_none {m : Option NumMap} {k : String}
    (h : ownProp m k = none) : (memberOf m k).toNumber = none := by
  cases m with
  | none => rfl
  | some l =>
    simp only [ownProp] at h
    simp only [memberOf, member, h]
    split <;> rfl

/-- Two objects with the same own member under `k`, or both without one, read the same. -/
theorem memberOf_congr {m₁ m₂ : Option NumMap} {k : String}
    (h₁ : m₁.isSome = true) (h₂ : m₂.isSome = true) (h : ownProp m₁ k = ownProp m₂ k) :
    memberOf m₁ k = memberOf m₂ k := by
  obtain ⟨l₁, rfl⟩ := Option.isSome_iff_exists.mp h₁
  obtain ⟨l₂, rfl⟩ := Option.isSome_iff_exists.mp h₂
  simp only [ownProp] at h
  simp [memberOf, member, h]

/-- With both objects present the first loop never throws: it returns the incoming flag or
whether some enumerated stat satisfies the test of line 20. -/
theorem statsLoop_some (ps cs : NumMap) (keys : List String) (d : Bool) :
    statsLoop (some ps) (some cs) keys d
      = .ok (d || keys.any (fun k => statMismatch (member ps k) (member cs k))) := by
  induction keys generalizing d with
  | nil => simp [statsLoop]
  | cons k rest ih =>
    simp only [statsLoop, getProp, List.any_cons]
    by_cases h : statMismatch (member ps k) (member cs k) = true
    · simp [h, ih]
    · simp only [h, Bool.false_eq_true, if_false, ih]
      simp at h
      simp [h]

/-- With both objects present the second loop never throws. -/
theorem swordsLoop_some (pw cw : NumMap) (keys : List String) (d : Bool) :
    swordsLoop (some pw) (some cw) keys d
      = .ok (d || keys.any (fun k => swordMismatch (member pw k) (member cw k))) := by
  induction keys generalizing d with
  | nil => simp [swordsLoop]
  | cons k rest ih =>
    simp only [swordsLoop, getProp, List.any_cons]
    by_cases h : swordMismatch (member pw k) (member cw k) = true
    · simp [h, ih]
    · simp only [h, Bool.false_eq_true, if_false, ih]
      simp at h
      simp [h]

theorem statsLoop_forInKeys (es : Option NumMap) (cs : NumMap) (d : Bool) :
    statsLoop es (some cs) (forInKeys es) d
      = .ok (d || (forInKeys es).any
          (fun k => statMismatch (memberOf es k) (memberOf (some cs) k))) := by
  cases es with
  | none => simp [forInKeys, statsLoop]
  | some ps => exact statsLoop_some ps cs _ d

theorem swordsLoop_forInKeys (ew : Option NumMap) (cw : NumMap) (d : Bool) :
    swordsLoop ew (some cw) (forInKeys ew) d
      = .ok (d || (forInKeys ew).any
          (fun k => swordMismatch (memberOf ew k) (memberOf (some cw) k))) := by
  cases ew with
  | none => simp [forInKeys, swordsLoop]
  | some pw => exact swordsLoop_some pw cw _ d

/-- The result of `detectDataloss` when the current body has both members. -/
theorem detectDataloss_eq (prev cur : LogData) (cs cw : NumMap)
    (hcs : cur.stats = some cs) (hcw : cur.swords = some cw) :
    detectDataloss prev cur
      = .ok ((forInKeys prev.stats).any
              (fun k => statMismatch (memberOf prev.stats k) (memberOf (some cs) k))
          || (forInKeys prev.swords).any
              (fun k => swordMismatch (memberOf prev.swords k) (memberOf (some cw) k))) := by
  simp [detectDataloss, hcs, hcw, statsLoop_forInKeys, swordsLoop_forInKeys]

theorem statsLoop_self (m : Option NumMap) : statsLoop m m (forInKeys m) false = .ok false := by
  cases m with
  | none => rfl
  | some cs =>
    rw [statsLoop_some]
    simp [statMismatch_self]

theorem swordsLoop_self (m : Option NumMap) : swordsLoop m m (forInKeys m) false = .ok false := by
  cases m with
  | none => rfl
  | some cw =>
    rw [swordsLoop_some]
    simp [swordMismatch_self]

theorem detectDataloss_refl (S : LogData) : detectDataloss S S = .ok false := by
  simp [detectDataloss, statsLoop_self, swordsLoop_self]

/-- C6: comparing any body with itself, with any `stats` and any `swords` member (or none), makes
`detectDataloss` return `false`; the tests of lines 20 and 30 flag no stat and no sword when both
sides hold the same value. -/
theorem detectDataloss_self (S : LogData) :
    detectDataloss S S = .ok false
      ∧ (∀ v : JsValue, statMismatch v v = false)
      ∧ (∀ v : JsValue, swordMismatch v v = false) := by
  exact ⟨detectDataloss_refl S, statMismatch_self, swordMismatch_self⟩

theorem any_congr_of_mem {l : List String} {f g : String → Bool}
    (h : ∀ k ∈ l, f k = g k) : l.any f = l.any g := by
  induction l with
  | nil => rfl
  | cons a t ih =>
    simp only [List.any_cons]
    rw [h a (List.mem_cons_self a t), ih (fun k hk => h k (List.mem_cons_of_mem a hk))]

theorem mem_forInKeys_of_ownProp {m : Option NumMap} {k : String} {x : ℚ}
    (h : ownProp m k = some x) : k ∈ forInKeys m := by
  cases m with
  | none => simp [ownProp] at h
  | some l => exact mem_forInKeys h

theorem ownProp_of_mem_forInKeys {m : Option NumMap} {k : String} (h : k ∈ forInKeys m) :
    ∃ x, ownProp m k = some x := by
  cases m with
  | none => simp [forInKeys] at h
  | some l => exact lookup_isSome_of_mem_forInKeys h

/-- The result of `detectDataloss` against a current body that has both members. -/
theorem detectDataloss_snapshot (prev cur : LogData) (hc : cur.isSnapshot) :
    detectDataloss prev cur
      = .ok ((forInKeys prev.stats).any
              (fun k => statMismatch (memberOf prev.stats k) (memberOf cur.stats k))
          || (forInKeys prev.swords).any
              (fun k => swordMismatch (memberOf prev.swords k) (memberOf cur.swords k))) := by
  obtain ⟨h1, h2⟩ := hc
  obtain ⟨cs, hcs⟩ := Option.isSome_iff_exists.mp h1
  obtain ⟨cw, hcw⟩ := Option.isSome_iff_exists.mp h2
  rw [detectDataloss_eq prev cur cs cw hcs hcw, hcs, hcw]

/-- C7 (what the code does): a stat that the previous body holds with the positive value 100 and
that the current body omits is not reported, since `100 > undefined` is `false`;
`detectDataloss` returns `false` here. -/
theorem detectDataloss_omitted_stat :
    detectDataloss ⟨"alice", some [("gold", 100)], some [("sword1", 2)]⟩
      ⟨"alice", some [], some [("sword1", 2)]⟩ = .ok false := by
  rfl

theorem statMismatch_number (p c : ℚ) :
    statMismatch (.number p) (.number c) = decide (c < p) := rfl

theorem statMismatch_of_nan (u v : JsValue) (h : v.toNumber = none) :
    statMismatch u v = false := by
  cases hu : u.toNumber <;> simp [statMismatch, jsGt, hu, h]

theorem swordMismatch_of_not_pos (p : ℚ) (v : JsValue) (h : ¬ 0 < p) :
    swordMismatch (.number p) v = false := by
  simp [swordMismatch, jsGt, JsValue.toNumber, h]

theorem swordMismatch_number (p c : ℚ) (hpos : 0 < p) :
    swordMismatch (.number p) (.number c) = decide (c < p) := by
  by_cases h : c = 0
  · subst h
    simp [swordMismatch, jsGt, jsLt, jsOrZero, JsValue.truthy, JsValue.toNumber, hpos]
  · simp [swordMismatch, jsGt, jsLt, jsOrZero_number h, JsValue.toNumber, hpos]

theorem swordMismatch_undefined (p : ℚ) (hpos : 0 < p) :
    swordMismatch (.number p) .undefined = true := by
  simp [swordMismatch, jsGt, jsLt, jsOrZero, JsValue.truthy, JsValue.toNumber, hpos]

/-- An inherited member is truthy, so `|| 0` keeps it, and it compares as `NaN`: the test of
line 30 is `false` for it. -/
theorem swordMismatch_inherited (v : JsValue) : swordMismatch v .inherited = false := by
  simp [swordMismatch, jsLt, jsOrZero, JsValue.truthy, JsValue.toNumber]

theorem memberOf_undefined {m : Option NumMap} {k : String} (hm : m.isSome = true)
    (h : ownProp m k = none) (hk : objectPrototypeNames.contains k = false) :
    memberOf m k = .undefined := by
  obtain ⟨l, rfl⟩ := Option.isSome_iff_exists.mp hm
  simp only [ownProp] at h
  simp only [memberOf, member, h, hk, Bool.false_eq_true, if_false]

/-- Where every decrease is reported: a stat held by both bodies that went down, or a sword with
a strictly positive previous count whose current count (zero when the name is absent) is below
it, provided an absent sword name is not a name of `Object.prototype`. -/
theorem detectDataloss_of_own_decrease (prev cur : LogData) (hc : cur.isSnapshot)
    (h : (∃ k p c, ownProp prev.stats k = some p ∧ ownProp cur.stats k = some c ∧ c < p)
        ∨ (∃ k p, ownProp prev.swords k = some p ∧ 0 < p
              ∧ (ownProp cur.swords k).getD 0 < p
              ∧ (ownProp cur.swords k = none → objectPrototypeNames.contains k = false))) :
    detectDataloss prev cur = .ok true := by
  rw [detectDataloss_snapshot prev cur hc]
  congr 1
  rw [Bool.or_eq_true]
  rcases h with ⟨k, p, c, hp, hcur, hlt⟩ | ⟨k, p, hp, hpos, hlt, hname⟩
  · left
    rw [List.any_eq_true]
    refine ⟨k, mem_forInKeys_of_ownProp hp, ?_⟩
    rw [memberOf_of_ownProp hp, memberOf_of_ownProp hcur, statMismatch_number]
    simpa using hlt
  · right
    rw [List.any_eq_true]
    refine ⟨k, mem_forInKeys_of_ownProp hp, ?_⟩
    rw [memberOf_of_ownProp hp]
    cases hcur : ownProp cur.swords k with
    | none =>
      rw [memberOf_undefined hc.2 hcur (hname hcur)]
      exact swordMismatch_undefined p hpos
    | some c =>
      rw [hcur] at hlt
      rw [memberOf_of_ownProp hcur, swordMismatch_number p c hpos]
      simpa using hlt

/-- C8 (what the code does): a sword named `constructor` with the previous count 2 that the
current body omits is not reported. `currentLog.swords["constructor"]` is the function inherited
from `Object.prototype`; it is truthy, so `|| 0` does not replace it, and it is not below 2 as a
number, so `detectDataloss` returns `false` here. -/
theorem detectDataloss_inherited_sword :
    detectDataloss ⟨"alice", some [], some [("constructor", 2)]⟩
      ⟨"alice", some [], some []⟩ = .ok false := by
  rfl

/-- C9: monotonicity: when every stat of the previous body has a current value (zero when the
name is absent) at least its previous value, and every sword with a strictly positive previous
count has a current count (zero when absent) at least that count, `detectDataloss` returns
`false`. -/
theorem detectDataloss_of_no_decrease (prev cur : LogData) (hc : cur.isSnapshot)
    (hstats : ∀ k p, ownProp prev.stats k = some p → p ≤ (ownProp cur.stats k).getD 0)
    (hswords : ∀ k p, ownProp prev.swords k = some p → 0 < p
        → p ≤ (ownProp cur.swords k).getD 0) :
    detectDataloss prev cur = .ok false := by
  rw [detectDataloss_snapshot prev cur hc]
  congr 1
  rw [Bool.or_eq_false_iff]
  constructor
  · rw [List.any_eq_false]
    intro k hk
    obtain ⟨p, hp⟩ := ownProp_of_mem_forInKeys hk
    have h := hstats k p hp
    cases hcur : ownProp cur.stats k with
    | none =>
      have := statMismatch_of_nan (memberOf prev.stats k) (memberOf cur.stats k)
        (memberOf_toNumber_of_ownProp_none hcur)
      simp [this]
    | some c =>
      rw [hcur] at h
      rw [memberOf_of_ownProp hp, memberOf_of_ownProp hcur, statMismatch_number]
      simpa using h
  · rw [List.any_eq_false]
    intro k hk
    obtain ⟨p, hp⟩ := ownProp_of_mem_forInKeys hk
    rw [memberOf_of_ownProp hp]
    by_cases hpos : 0 < p
    · have h := hswords k p hp hpos
      cases hcur : ownProp cur.swords k with
      | none =>
        rw [hcur] at h
        exact absurd (lt_of_lt_of_le hpos h) (by simp)
      | some c =>
        rw [hcur] at h
        rw [memberOf_of_ownProp hcur, swordMismatch_number p c hpos]
        simpa using h
    · simp [swordMismatch_of_not_pos p _ hpos]

/-- C10: untracked members never decide the result: two current bodies that agree on every stat
name of the previous body and on every sword name whose previous count is strictly positive get
the same result from `detectDataloss`, however they differ elsewhere. -/
theorem detectDataloss_untracked (prev cur₁ cur₂ : LogData)
    (hc₁ : cur₁.isSnapshot) (hc₂ : cur₂.isSnapshot)
    (hstats : ∀ k p, ownProp prev.stats k = some p → ownProp cur₁.stats k = ownProp cur₂.stats k)
    (hswords : ∀ k p, ownProp prev.swords k = some p → 0 < p
        → ownProp cur₁.swords k = ownProp cur₂.swords k) :
    detectDataloss prev cur₁ = detectDataloss prev cur₂ := by
  rw [detectDataloss_snapshot prev cur₁ hc₁, detectDataloss_snapshot prev cur₂ hc₂]
  congr 2
  · apply any_congr_of_mem
    intro k hk
    obtain ⟨p, hp⟩ := ownProp_of_mem_forInKeys hk
    rw [memberOf_congr hc₁.1 hc₂.1 (hstats k p hp)]
  · apply any_congr_of_mem
    intro k hk
    obtain ⟨p, hp⟩ := ownProp_of_mem_forInKeys hk
    by_cases hpos : 0 < p
    · rw [memberOf_congr hc₁.2 hc₂.2 (hswords k p hp hpos)]
    · rw [memberOf_of_ownProp hp, swordMismatch_of_not_pos p _ hpos,
        swordMismatch_of_not_pos p _ hpos]

theorem detectDataloss_of_no_decrease_witness :
    detectDataloss ⟨"alice", some [("gold", 100)], some [("sword1", 2), ("sword2", 0)]⟩
      ⟨"alice", some [("gold", 150)], some [("sword1", 2)]⟩ = .ok false :=
  detectDataloss_of_no_decrease _ _ (by decide)
    (by
      intro k p h
      by_cases hk : k = "gold"
      · subst hk
        simp [ownProp, List.lookup] at h
        subst h
        simp [ownProp, List.lookup]
        norm_num
      · simp [ownProp, lookup_cons_ne hk _ _] at h)
    (by
      intro k p h hpos
      by_cases hk : k = "sword1"
      · subst hk
        simp [ownProp, List.lookup] at h
        subst h
        simp [ownProp, List.lookup]
      · by_cases hk2 : k = "sword2"
        · subst hk2
          simp [ownProp, List.lookup] at h
          subst h
          simp at hpos
        · simp [ownProp, lookup_cons_ne hk _ _, lookup_cons_ne hk2 _ _] at h)

theorem detectDataloss_untracked_witness :
    detectDataloss ⟨"bob", some [("gold", 100)], some [("sword1", 0)]⟩
        ⟨"bob", some [("gold", 100), ("xp", 7)], some [("sword1", 5)]⟩
      = detectDataloss ⟨"bob", some [("gold", 100)], some [("sword1", 0)]⟩
        ⟨"bob", some [("gold", 100), ("xp", 1)], some []⟩ :=
  detectDataloss_untracked _ _ _ (by decide) (by decide)
    (by
      intro k p h
      by_cases hk : k = "gold"
      · subst hk
        simp [ownProp, List.lookup]
      · simp [ownProp, lookup_cons_ne hk _ _] at h)
    (by
      intro k p h hpos
      by_cases hk : k = "sword1"
      · subst hk
        simp [ownProp, List.lookup] at h
        subst h
        simp at hpos
      · simp [ownProp, lookup_cons_ne hk _ _] at h)

/-! Properties of the handlers. -/

theorem consistent_empty : Consistent Store.empty :=
  ⟨fun _ _ h => by simp [Store.empty] at h, fun _ _ h => by simp [Store.empty] at h⟩

theorem consistent_writePlayerLog_of_absent (s : Store) (d : LogData) (h : Consistent s)
    (hno : s.datalossLogs d.playerName = none) :
    Consistent (writePlayerLog s d.playerName d) := by
  constructor
  · intro p dl hdl
    simp only [writePlayerLog] at hdl ⊢
    by_cases hp : p = d.playerName
    · subst hp
      rw [hno] at hdl
      cases hdl
    · simp only [hp, if_false]
      exact h.frozen p dl hdl
  · intro p x hx
    simp only [writePlayerLog] at hx
    by_cases hp : p = d.playerName
    · simp only [hp, if_true, Option.some.injEq] at hx
      rw [← hx, hp]
    · simp only [hp, if_false] at hx
      exact h.named p x hx

theorem consistent_recover (s : Store) (d : LogData) (h : Consistent s) :
    Consistent (writePlayerLog (unlinkDatalossLog s d.playerName) d.playerName d) := by
  constructor
  · intro p dl hdl
    simp only [writePlayerLog, unlinkDatalossLog] at hdl ⊢
    by_cases hp : p = d.playerName
    · simp [hp] at hdl
    · simp only [hp, if_false] at hdl ⊢
      exact h.frozen p dl hdl
  · intro p x hx
    simp only [writePlayerLog, unlinkDatalossLog] at hx
    by_cases hp : p = d.playerName
    · simp only [hp, if_true, Option.some.injEq] at hx
      rw [← hx, hp]
    · simp only [hp, if_false] at hx
      exact h.named p x hx

theorem consistent_writeDatalossLog (s : Store) (name : String) (existing cur : LogData)
    (h : Consistent s) (hex : s.playerLogs name = some existing) :
    Consistent (writeDatalossLog s name { previousData := existing, currentData := cur }) := by
  constructor
  · intro p dl hdl
    simp only [writeDatalossLog] at hdl ⊢
    by_cases hp : p = name
    · simp only [hp, if_true, Option.some.injEq] at hdl
      rw [hp, hex, ← hdl]
    · simp only [hp, if_false] at hdl
      exact h.frozen p dl hdl
  · intro p x hx
    exact h.named p x hx

/-- Line 85: no existing log. -/
theorem postLog_absent (s : Store) (d : LogData) (hex : s.playerLogs d.playerName = none) :
    postLog s d = (writePlayerLog s d.playerName d, .newLogCreated) := by
  simp [postLog, readPlayerLog, hex]

/-- Line 49 throws. -/
theorem postLog_throw (s : Store) (d existing : LogData) (e : JsError)
    (hex : s.playerLogs d.playerName = some existing)
    (hdet : detectDataloss existing d = .error e) :
    postLog s d = (s, .serverError) := by
  simp [postLog, readPlayerLog, hex, hdet]

/-- Lines 51-62 with no dataloss log yet. -/
theorem postLog_detected_new (s : Store) (d existing : LogData)
    (hex : s.playerLogs d.playerName = some existing)
    (hdet : detectDataloss existing d = .ok true)
    (hdl : s.datalossLogs d.playerName = none) :
    postLog s d
      = (writeDatalossLog s d.playerName { previousData := existing, currentData := d },
          .datalossDetected) := by
  simp [postLog, readPlayerLog, readDatalossLog, hex, hdet, hdl]

/-- Lines 51-62 with a dataloss log already there. -/
theorem postLog_detected_open (s : Store) (d existing : LogData) (dl : DatalossData)
    (hex : s.playerLogs d.playerName = some existing)
    (hdet : detectDataloss existing d = .ok true)
    (hdl : s.datalossLogs d.playerName = some dl) :
    postLog s d = (s, .datalossDetected) := by
  simp [postLog, readPlayerLog, readDatalossLog, hex, hdet, hdl]

/-- Lines 79-81 with no dataloss log. -/
theorem postLog_updated (s : Store) (d existing : LogData)
    (hex : s.playerLogs d.playerName = some existing)
    (hdet : detectDataloss existing d = .ok false)
    (hdl : s.datalossLogs d.playerName = none) :
    postLog s d = (writePlayerLog s d.playerName d, .logUpdated) := by
  simp [postLog, readPlayerLog, readDatalossLog, hex, hdet, hdl]

/-- Lines 65-77. -/
theorem postLog_recovered (s : Store) (d existing : LogData) (dl : DatalossData)
    (hex : s.playerLogs d.playerName = some existing)
    (hdet : detectDataloss existing d = .ok false)
    (hdl : s.datalossLogs d.playerName = some dl)
    (hrec : detectDataloss dl.previousData d = .ok false) :
    postLog s d
      = (writePlayerLog (unlinkDatalossLog s d.playerName) d.playerName d, .recovered) := by
  simp [postLog, readPlayerLog, readDatalossLog, hex, hdet, hdl, hrec]

/-- Lines 79-81 reached past the test of line 65 with a dataloss log there. -/
theorem postLog_fallthrough (s : Store) (d existing : LogData) (dl : DatalossData)
    (hex : s.playerLogs d.playerName = some existing)
    (hdet : detectDataloss existing d = .ok false)
    (hdl : s.datalossLogs d.playerName = some dl)
    (hrec : detectDataloss dl.previousData d = .ok true) :
    postLog s d = (writePlayerLog s d.playerName d, .logUpdated) := by
  simp [postLog, readPlayerLog, readDatalossLog, hex, hdet, hdl, hrec]

/-- Line 65 throws. -/
theorem postLog_throw_recheck (s : Store) (d existing : LogData) (dl : DatalossData) (e : JsError)
    (hex : s.playerLogs d.playerName = some existing)
    (hdet : detectDataloss existing d = .ok false)
    (hdl : s.datalossLogs d.playerName = some dl)
    (hrec : detectDataloss dl.previousData d = .error e) :
    postLog s d = (s, .serverError) := by
  simp [postLog, readPlayerLog, readDatalossLog, hex, hdet, hdl, hrec]

/-- Serving a `POST /log` request keeps the stores consistent. -/
theorem consistent_postLog (s : Store) (d : LogData) (h : Consistent s) :
    Consistent (postLog s d).1 := by
  cases hex : s.playerLogs d.playerName with
  | none =>
    have hno : s.datalossLogs d.playerName = none := by
      cases hdl : s.datalossLogs d.playerName with
      | none => rfl
      | some dl => rw [h.frozen _ _ hdl] at hex; cases hex
    rw [postLog_absent s d hex]
    exact consistent_writePlayerLog_of_absent s d h hno
  | some existing =>
    cases hdet : detectDataloss existing d with
    | error e =>
      rw [postLog_throw s d existing e hex hdet]
      exact h
    | ok b =>
      cases hdl : s.datalossLogs d.playerName with
      | none =>
        cases b with
        | true =>
          rw [postLog_detected_new s d existing hex hdet hdl]
          exact consistent_writeDatalossLog s _ existing d h hex
        | false =>
          rw [postLog_updated s d existing hex hdet hdl]
          exact consistent_writePlayerLog_of_absent s d h hdl
      | some dl =>
        have hfro : existing = dl.previousData := by
          have := h.frozen _ _ hdl
          rw [hex] at this
          exact Option.some.inj this
        cases b with
        | true =>
          rw [postLog_detected_open s d existing dl hex hdet hdl]
          exact h
        | false =>
          rw [postLog_recovered s d existing dl hex hdet hdl (hfro ▸ hdet)]
          exact consistent_recover s d h

/-- Serving a `DELETE /logs/:playerName` request keeps the stores consistent. -/
theorem consistent_deleteLog (s : Store) (name : String) (h : Consistent s) :
    Consistent (deleteLog s name).1 := by
  constructor
  · intro p dl hdl
    by_cases hp : p = name
    · exfalso
      subst hp
      simp only [deleteLog, unlinkPlayerLog, unlinkDatalossLog] at hdl
      split_ifs at hdl <;> simp_all
    · have h1 : (deleteLog s name).1.datalossLogs p = s.datalossLogs p := by
        simp only [deleteLog, unlinkPlayerLog, unlinkDatalossLog]
        split_ifs <;> simp [hp]
      have h2 : (deleteLog s name).1.playerLogs p = s.playerLogs p := by
        simp only [deleteLog, unlinkPlayerLog, unlinkDatalossLog]
        split_ifs <;> simp [hp]
      rw [h1] at hdl
      rw [h2]
      exact h.frozen p dl hdl
  · intro p x hx
    have h2 : (deleteLog s name).1.playerLogs p = s.playerLogs p ∨
        (deleteLog s name).1.playerLogs p = none := by
      simp only [deleteLog, unlinkPlayerLog, unlinkDatalossLog]
      by_cases hp : p = name
      · split_ifs <;> simp_all
      · left
        split_ifs <;> simp [hp]
    rcases h2 with h2 | h2
    · rw [h2] at hx
      exact h.named p x hx
    · rw [h2] at hx
      cases hx

theorem consistent_run (reqs : List Request) (s : Store) (h : Consistent s) :
    Consistent (run s reqs) := by
  induction reqs generalizing s with
  | nil => exact h
  | cons r rest ih =>
    simp only [run, List.foldl_cons]
    apply ih
    cases r with
    | post d => exact consistent_postLog s d h
    | delete name => exact consistent_deleteLog s name h

/-- Every store reachable from the empty log directory is consistent. -/
theorem consistent_of_reachable {s : Store} (h : Reachable s) : Consistent s := by
  obtain ⟨reqs, rfl⟩ := h
  exact consistent_run reqs _ consistent_empty

theorem reachable_trackingStore : Reachable trackingStore := ⟨_, rfl⟩

theorem reachable_incidentStore : Reachable incidentStore := ⟨_, rfl⟩

/-- C1: when the player has the log `B` and no dataloss record, and `detectDataloss B S` reports
dataloss, `POST /log` with body `S` answers "Dataloss detected and logged.", stores the record
`{ previousData: B, currentData: S }` for the player, and leaves every player log as it was, so
the player's log is still `B`. -/
theorem postLog_opens_incident (s : Store) (B S : LogData)
    (hB : readPlayerLog s S.playerName = some B)
    (hno : readDatalossLog s S.playerName = none)
    (hreg : detectDataloss B S = .ok true) :
    (postLog s S).2 = .datalossDetected
      ∧ readDatalossLog (postLog s S).1 S.playerName
          = some { previousData := B, currentData := S }
      ∧ readPlayerLog (postLog s S).1 S.playerName = some B
      ∧ (postLog s S).1.playerLogs = s.playerLogs := by
  rw [postLog_detected_new s S B hB hreg hno]
  refine ⟨rfl, ?_, hB, rfl⟩
  simp [readDatalossLog, writeDatalossLog]

theorem postLog_opens_incident_witness :
    (postLog trackingStore (aliceGold 50)).2 = .datalossDetected
      ∧ readDatalossLog (postLog trackingStore (aliceGold 50)).1 (aliceGold 50).playerName
          = some { previousData := aliceGold 150, currentData := aliceGold 50 }
      ∧ readPlayerLog (postLog trackingStore (aliceGold 50)).1 (aliceGold 50).playerName
          = some (aliceGold 150)
      ∧ (postLog trackingStore (aliceGold 50)).1.playerLogs = trackingStore.playerLogs :=
  postLog_opens_incident trackingStore (aliceGold 150) (aliceGold 50) (by rfl) (by rfl) (by rfl)

/-- C2: in a store reachable from the empty one by `POST /log` and `DELETE /logs/:playerName`
requests where the player has a dataloss record, a body `S` that still shows dataloss against the
record's `previousData` is answered "Dataloss detected and logged." and nothing is written: the
store, and so the player's log and the record with its `previousData` and `currentData`, stay as
they were. -/
theorem postLog_keeps_incident (s : Store) (S : LogData) (dl : DatalossData)
    (hs : Reachable s)
    (hdl : readDatalossLog s S.playerName = some dl)
    (hreg : detectDataloss dl.previousData S = .ok true) :
    (postLog s S).2 = .datalossDetected
      ∧ (postLog s S).1 = s
      ∧ readDatalossLog (postLog s S).1 S.playerName = some dl
      ∧ readPlayerLog (postLog s S).1 S.playerName = some dl.previousData := by
  have hex := (consistent_of_reachable hs).frozen _ _ hdl
  rw [postLog_detected_open s S dl.previousData dl hex hreg hdl]
  exact ⟨rfl, rfl, hdl, hex⟩

theorem postLog_keeps_incident_witness :
    (postLog incidentStore (aliceGold 90)).2 = .datalossDetected
      ∧ (postLog incidentStore (aliceGold 90)).1 = incidentStore
      ∧ readDatalossLog (postLog incidentStore (aliceGold 90)).1 (aliceGold 90).playerName
          = some { previousData := aliceGold 150, currentData := aliceGold 50 }
      ∧ readPlayerLog (postLog incidentStore (aliceGold 90)).1 (aliceGold 90).playerName
          = some (aliceGold 150) :=
  postLog_keeps_incident incidentStore (aliceGold 90)
    { previousData := aliceGold 150, currentData := aliceGold 50 }
    reachable_incidentStore (by rfl) (by rfl)

/-- C3: in a store reachable from the empty one where the player has a dataloss record, a body
`S` that shows no dataloss against the record's `previousData` is answered "Player has recovered.
Dataloss log removed and log updated.", the record is removed and the player's log becomes `S`;
and the record's `previousData` itself is always such a body. -/
theorem postLog_recovers (s : Store) (S : LogData) (dl : DatalossData)
    (hs : Reachable s)
    (hdl : readDatalossLog s S.playerName = some dl)
    (hrec : detectDataloss dl.previousData S = .ok false) :
    ((postLog s S).2 = .recovered
        ∧ readDatalossLog (postLog s S).1 S.playerName = none
        ∧ readPlayerLog (postLog s S).1 S.playerName = some S)
      ∧ ((postLog s dl.previousData).2 = .recovered
        ∧ readDatalossLog (postLog s dl.previousData).1 S.playerName = none
        ∧ readPlayerLog (postLog s dl.previousData).1 S.playerName = some dl.previousData) := by
  have hc := consistent_of_reachable hs
  have hex := hc.frozen _ _ hdl
  have key : ∀ T : LogData, T.playerName = S.playerName →
      detectDataloss dl.previousData T = .ok false →
      (postLog s T).2 = .recovered
        ∧ readDatalossLog (postLog s T).1 S.playerName = none
        ∧ readPlayerLog (postLog s T).1 S.playerName = some T := by
    intro T hT hT0
    rw [← hT] at hex hdl ⊢
    rw [postLog_recovered s T dl.previousData dl hex hT0 hdl hT0]
    refine ⟨rfl, ?_, ?_⟩
    · simp [readDatalossLog, writePlayerLog, unlinkDatalossLog]
    · simp [readPlayerLog, writePlayerLog]
  exact ⟨key S rfl hrec, key dl.previousData (hc.named _ _ hex) (detectDataloss_refl _)⟩

theorem postLog_recovers_witness :
    ((postLog incidentStore (aliceGold 175)).2 = .recovered
        ∧ readDatalossLog (postLog incidentStore (aliceGold 175)).1 "alice" = none
        ∧ readPlayerLog (postLog incidentStore (aliceGold 175)).1 "alice"
            = some (aliceGold 175))
      ∧ ((postLog incidentStore (aliceGold 150)).2 = .recovered
        ∧ readDatalossLog (postLog incidentStore (aliceGold 150)).1 "alice" = none
        ∧ readPlayerLog (postLog incidentStore (aliceGold 150)).1 "alice"
            = some (aliceGold 150)) :=
  postLog_recovers incidentStore (aliceGold 175)
    { previousData := aliceGold 150, currentData := aliceGold 50 }
    reachable_incidentStore (by rfl) (by rfl)

/-- C4: when the player has no dataloss record and either has no log, or has the log `B` and
`detectDataloss B S` reports no dataloss, `POST /log` with body `S` makes `S` the player's log
and writes no dataloss record; the answer is "New log created." when there was no log, whatever
`S` holds, and "Log updated." when there was one. -/
theorem postLog_accepts (s : Store) (S : LogData)
    (hno : readDatalossLog s S.playerName = none)
    (hok : readPlayerLog s S.playerName = none
        ∨ ∃ B, readPlayerLog s S.playerName = some B ∧ detectDataloss B S = .ok false) :
    readPlayerLog (postLog s S).1 S.playerName = some S
      ∧ (postLog s S).1.datalossLogs = s.datalossLogs
      ∧ readDatalossLog (postLog s S).1 S.playerName = none
      ∧ (postLog s S).2
          = if (readPlayerLog s S.playerName).isSome then .logUpdated else .newLogCreated := by
  rcases hok with hex | ⟨B, hex, hdet⟩
  · rw [postLog_absent s S hex]
    exact ⟨by simp [readPlayerLog, writePlayerLog], rfl, hno, by simp [hex]⟩
  · rw [postLog_updated s S B hex hdet hno]
    exact ⟨by simp [readPlayerLog, writePlayerLog], rfl, hno, by simp [hex]⟩

theorem postLog_accepts_witness :
    (readPlayerLog (postLog Store.empty ⟨"bob", some [], some [("sword1", 0)]⟩).1 "bob"
          = some ⟨"bob", some [], some [("sword1", 0)]⟩
        ∧ (postLog Store.empty ⟨"bob", some [], some [("sword1", 0)]⟩).1.datalossLogs
          = Store.empty.datalossLogs
        ∧ readDatalossLog (postLog Store.empty ⟨"bob", some [], some [("sword1", 0)]⟩).1 "bob"
          = none
        ∧ (postLog Store.empty ⟨"bob", some [], some [("sword1", 0)]⟩).2 = .newLogCreated)
      ∧ (readPlayerLog (postLog trackingStore (aliceGold 175)).1 "alice" = some (aliceGold 175)
        ∧ (postLog trackingStore (aliceGold 175)).1.datalossLogs = trackingStore.datalossLogs
        ∧ readDatalossLog (postLog trackingStore (aliceGold 175)).1 "alice" = none
        ∧ (postLog trackingStore (aliceGold 175)).2 = .logUpdated) :=
  ⟨postLog_accepts Store.empty ⟨"bob", some [], some [("sword1", 0)]⟩ (by rfl)
      (Or.inl (by rfl)),
    postLog_accepts trackingStore (aliceGold 175) (by rfl)
      (Or.inr ⟨aliceGold 150, by rfl, by rfl⟩)⟩

/-- C5 (as the code has it): when the player has both a log and a dataloss record, and
`detectDataloss` gives the same answer against the log as against the record's `previousData`
(as it does whenever the two are equal), `POST /log` gives the result and the stores of the
spec's step 4: "Dataloss detected and logged." with nothing written when that answer is dataloss,
otherwise "Player has recovered." with the record removed and the log replaced by `S`. -/
theorem postLog_refines_step4 (s : Store) (S existing : LogData) (dl : DatalossData) (b : Bool)
    (hex : readPlayerLog s S.playerName = some existing)
    (hdl : readDatalossLog s S.playerName = some dl)
    (hsame : detectDataloss existing S = detectDataloss dl.previousData S)
    (hdet : detectDataloss dl.previousData S = .ok b) :
    specStep4 s dl S = .ok (postLog s S)
      ∧ postLog s S
          = if b then (s, .datalossDetected)
            else (writePlayerLog (unlinkDatalossLog s S.playerName) S.playerName S,
              .recovered) := by
  cases b with
  | true =>
    rw [postLog_detected_open s S existing dl hex (hsame.trans hdet) hdl]
    simp [specStep4, hdet]
  | false =>
    rw [postLog_recovered s S existing dl hex (hsame.trans hdet) hdl hdet]
    simp [specStep4, hdet]

theorem postLog_refines_step4_witness :
    specStep4 incidentStore { previousData := aliceGold 150, currentData := aliceGold 50 }
        (aliceGold 150)
        = .ok (postLog incidentStore (aliceGold 150))
      ∧ postLog incidentStore (aliceGold 150)
          = if false then (incidentStore, .datalossDetected)
            else (writePlayerLog (unlinkDatalossLog incidentStore (aliceGold 150).playerName)
                (aliceGold 150).playerName (aliceGold 150), .recovered) :=
  postLog_refines_step4 incidentStore (aliceGold 150) (aliceGold 150)
    { previousData := aliceGold 150, currentData := aliceGold 50 } false
    (by rfl) (by rfl) (by rfl) (by rfl)

/-- C5 (counterexample): in `divergedStore` the log of "alice" has gold 200 and the record's
`previousData` has gold 100. The body with gold 150 shows no dataloss against `previousData`, so
step 4 of the spec answers Recovered, but the handler compares with the log first and answers
"Dataloss detected and logged.", keeping the record. -/
theorem postLog_not_decided_by_incident :
    readPlayerLog divergedStore "alice" = some (aliceGold 200)
      ∧ readDatalossLog divergedStore "alice"
          = some { previousData := aliceGold 100, currentData := aliceGold 50 }
      ∧ detectDataloss (aliceGold 100) (aliceGold 150) = .ok false
      ∧ (postLog divergedStore (aliceGold 150)).2 = .datalossDetected
      ∧ (postLog divergedStore (aliceGold 150)).1 = divergedStore
      ∧ (specStep4 divergedStore { previousData := aliceGold 100, currentData := aliceGold 50 }
            (aliceGold 150)).map Prod.snd = .ok .recovered
      ∧ specStep4 divergedStore { previousData := aliceGold 100, currentData := aliceGold 50 }
            (aliceGold 150) ≠ .ok (postLog divergedStore (aliceGold 150)) := by
  refine ⟨rfl, rfl, rfl, rfl, rfl, rfl, ?_⟩
  intro h
  have h2 : (Except.ok Response.recovered : Except JsError Response)
      = Except.ok Response.datalossDetected := congrArg (Except.map Prod.snd) h
  cases h2

theorem statsLoop_undefined (es : Option NumMap) (k : String) (rest : List String) (d : Bool) :
    statsLoop es none (k :: rest) d = .error .typeError := by
  cases es <;> rfl

theorem swordsLoop_undefined (ew : Option NumMap) (k : String) (rest : List String) (d : Bool) :
    swordsLoop ew none (k :: rest) d = .error .typeError := by
  cases ew <;> rfl

/-- The comparison throws when the current body lacks a member in which the existing log has at
least one name. -/
theorem detectDataloss_throws (existing body : LogData)
    (hbad : (body.stats = none ∧ forInKeys existing.stats ≠ [])
        ∨ (body.swords = none ∧ forInKeys existing.swords ≠ [])) :
    detectDataloss existing body = .error .typeError := by
  unfold detectDataloss
  rcases hbad with ⟨hnone, hkeys⟩ | ⟨hnone, hkeys⟩
  · rw [hnone]
    cases hk : forInKeys existing.stats with
    | nil => exact absurd hk hkeys
    | cons k rest => rw [statsLoop_undefined]
  · rw [hnone]
    cases hst : statsLoop existing.stats body.stats (forInKeys existing.stats) false with
    | error e => cases e; rfl
    | ok d =>
      cases hk : forInKeys existing.swords with
      | nil => exact absurd hk hkeys
      | cons k rest => simp only [swordsLoop_undefined]

/-- C11 (as the code has it): the handler validates nothing itself; a body that lacks `stats`
or `swords` fails only through the `TypeError` of the comparison. When the player already has a
log holding at least one name in a member the body lacks, `POST /log` answers with status 500
and both stores stay as they were. -/
theorem postLog_rejects_malformed (s : Store) (body existing : LogData)
    (hex : readPlayerLog s body.playerName = some existing)
    (hbad : (body.stats = none ∧ forInKeys existing.stats ≠ [])
        ∨ (body.swords = none ∧ forInKeys existing.swords ≠ [])) :
    (postLog s body).2 = .serverError
      ∧ (postLog s body).1 = s
      ∧ (postLog s body).1.playerLogs = s.playerLogs
      ∧ (postLog s body).1.datalossLogs = s.datalossLogs := by
  rw [postLog_throw s body existing .typeError hex (detectDataloss_throws existing body hbad)]
  exact ⟨rfl, rfl, rfl, rfl⟩

theorem postLog_rejects_malformed_witness :
    (postLog trackingStore ⟨"alice", none, some [("sword1", 2)]⟩).2 = .serverError
      ∧ (postLog trackingStore ⟨"alice", none, some [("sword1", 2)]⟩).1 = trackingStore
      ∧ (postLog trackingStore ⟨"alice", none, some [("sword1", 2)]⟩).1.playerLogs
          = trackingStore.playerLogs
      ∧ (postLog trackingStore ⟨"alice", none, some [("sword1", 2)]⟩).1.datalossLogs
          = trackingStore.datalossLogs :=
  postLog_rejects_malformed trackingStore ⟨"alice", none, some [("sword1", 2)]⟩ (aliceGold 150)
    (by rfl) (Or.inl ⟨rfl, by decide⟩)

/-- C11 (counterexample): a first submission for "bob" that has no `stats` member is not
rejected: the handler answers "New log created." and the body becomes the log of "bob". A body
with neither member is also accepted, with "Log updated.", over a log that holds no names. -/
theorem postLog_stores_malformed :
    ¬ (⟨"bob", none, some [("sword1", 1)]⟩ : LogData).isSnapshot
      ∧ readPlayerLog Store.empty "bob" = none
      ∧ (postLog Store.empty ⟨"bob", none, some [("sword1", 1)]⟩).2 = .newLogCreated
      ∧ readPlayerLog (postLog Store.empty ⟨"bob", none, some [("sword1", 1)]⟩).1 "bob"
          = some ⟨"bob", none, some [("sword1", 1)]⟩
      ∧ (postLog (run Store.empty [.post ⟨"bob", some [], some []⟩]) ⟨"bob", none, none⟩).2
          = .logUpdated
      ∧ readPlayerLog
            (postLog (run Store.empty [.post ⟨"bob", some [], some []⟩]) ⟨"bob", none, none⟩).1
            "bob"
          = some ⟨"bob", none, none⟩ := by
  refine ⟨by decide, rfl, rfl, rfl, rfl, rfl⟩

/-- C12: in every store reachable from the empty one by `POST /log` and
`DELETE /logs/:playerName` requests, a player with a dataloss record has a log, and that log is
the record's `previousData`. Hence for every body of that player the checks of lines 49 and 65
give the same result, and the answer is never the "Log updated." of lines 79-81. -/
theorem reachable_incident_frozen (s : Store) (p : String) (dl : DatalossData) (body : LogData)
    (hs : Reachable s)
    (hdl : readDatalossLog s p = some dl)
    (hp : body.playerName = p) :
    readPlayerLog s p = some dl.previousData
      ∧ (∃ existing, readPlayerLog s p = some existing
          ∧ detectDataloss existing body = detectDataloss dl.previousData body)
      ∧ (postLog s body).2 ≠ .logUpdated := by
  subst hp
  have hex := (consistent_of_reachable hs).frozen _ _ hdl
  refine ⟨hex, ⟨dl.previousData, hex, rfl⟩, ?_⟩
  cases hdet : detectDataloss dl.previousData body with
  | error e =>
    rw [postLog_throw s body dl.previousData e hex hdet]
    simp
  | ok b =>
    cases b with
    | true =>
      rw [postLog_detected_open s body dl.previousData dl hex hdet hdl]
      simp
    | false =>
      rw [postLog_recovered s body dl.previousData dl hex hdet hdl hdet]
      simp

theorem reachable_incident_frozen_witness :
    readPlayerLog incidentStore "alice" = some (aliceGold 150)
      ∧ (∃ existing, readPlayerLog incidentStore "alice" = some existing
          ∧ detectDataloss existing (aliceGold 90) = detectDataloss (aliceGold 150) (aliceGold 90))
      ∧ (postLog incidentStore (aliceGold 90)).2 ≠ .logUpdated :=
  reachable_incident_frozen incidentStore "alice"
    { previousData := aliceGold 150, currentData := aliceGold 50 } (aliceGold 90)
    reachable_incidentStore (by rfl) (by rfl)

end STMDatabase
